import Mathlib

/-!
# SQLite-on-SD-card example (`main/sd_mmc.c`): trace model

The program is a straight-line driver around three external services (the
FAT/SDMMC mounter, the SQLite engine and standard output).  Every C function
of `sd_mmc.c` is embedded as a Lean function that returns the list of external
calls it performs, in order, together with its C return value.  The answers of
the external services (return codes, result rows, message texts, timer
readings) are inputs of the model.
-/

namespace SdMmc

/-! ## Constants -/

/-- Value of `ESP_OK` in `esp_err.h`. -/
def ESP_OK : Int := 0

/-- Value of `ESP_FAIL` in `esp_err.h`. -/
def ESP_FAIL : Int := -1

/-- Value of `SQLITE_OK` in `sqlite3.h`. -/
def SQLITE_OK : Int := 0

/-- Log tag: `static const char *TAG = "sqlite3_sdmmc";`. -/
def TAG : String := "sqlite3_sdmmc"

/-- Label handed to every row callback:
`const char* data = "Callback function called";`. -/
def data : String := "Callback function called"

/-! ## External calls -/

/-- The two global connection variables `sqlite3 *db1; sqlite3 *db2;`. -/
inductive Handle
  | db1
  | db2
deriving DecidableEq, Repr

/-- Mount options passed to `esp_vfs_fat_sdmmc_mount`
(`esp_vfs_fat_sdmmc_mount_config_t`). -/
structure MountConfig where
  format_if_mount_failed : Bool
  max_files : Nat
  allocation_unit_size : Nat
deriving DecidableEq, Repr

/-- One external call made by the program.  Calls whose result the program
inspects carry that result as their last field. -/
inductive Event
  /-- Call `ESP_LOGI(tag, msg)`. -/
  | logI (tag msg : String)
  /-- Call `ESP_LOGE(tag, msg)`, with the message already formatted. -/
  | logE (tag msg : String)
  /-- Call `gpio_set_pull_mode(pin, GPIO_PULLUP_ONLY)`. -/
  | gpioPullUp (pin : Nat)
  /-- Call `esp_vfs_fat_sdmmc_mount(path, &host, &slot_config, &mount_config, &card)`
  returning `ret`. -/
  | mount (path : String) (cfg : MountConfig) (ret : Int)
  /-- Call `sdmmc_card_print_info(stdout, card)`. -/
  | cardInfo
  /-- Program stop forced by a failed `ESP_ERROR_CHECK`. -/
  | abort
  /-- Call `sqlite3_initialize()`. -/
  | sqliteInit
  /-- Call `sqlite3_open(filename, &db)` returning `rc`. -/
  | sqliteOpen (filename : String) (db : Handle) (rc : Int)
  /-- Call `sqlite3_errmsg(db)`. -/
  | sqliteErrmsg (db : Handle)
  /-- Call `esp_timer_get_time()`. -/
  | timerRead
  /-- Call `sqlite3_exec(db, sql, callback, data, &zErrMsg)` returning `rc`. -/
  | sqliteExec (db : Handle) (sql : String) (rc : Int)
  /-- Call `sqlite3_free(zErrMsg)`. -/
  | sqliteFree
  /-- Call `sqlite3_close(db)`. -/
  | sqliteClose (db : Handle)
  /-- One `printf` call, with the text it writes to standard output. -/
  | printf (text : String)
  /-- Call `esp_vfs_fat_sdcard_unmount(path, card)`. -/
  | unmount (path : String)
deriving DecidableEq, Repr

/-! ## Row callback -/

/-- The `for` loop of `callback`, resumed at column `i`: while `i < argc` it
prints one line for column `i` and goes on with `i + 1`.  The C arrays `argv`
and `azColName` are read by index; a null `argv[i]` is `none`.  The first
argument bounds the number of iterations still allowed. -/
def callbackLoop (argc : Int) (argv : Nat → Option String) (azColName : Nat → String) :
    Nat → Nat → List String
  | 0, _ => []
  | fuel + 1, i =>
    if (i : Int) < argc then
      (azColName i ++ " = " ++ (match argv i with
        | some v => v
        | none => "NULL") ++ "\n") :: callbackLoop argc argv azColName fuel (i + 1)
    else
      []

/-- Source function `callback(data, argc, argv, azColName)`: the texts of its
`printf` calls in order, and its return value.  Starting from `i = 0` the loop
test `i < argc` fails after `argc` iterations (none when `argc ≤ 0`), which is
the iteration bound given to `callbackLoop`. -/
def callback (data : String) (argc : Int) (argv : Nat → Option String)
    (azColName : Nat → String) : List String × Int :=
  ([data ++ ": \n"] ++ callbackLoop argc argv azColName argc.toNat 0 ++ ["\n"], 0)

/-! ## Answers of the external services -/

/-- One result row in the form `sqlite3_exec` hands it to its callback. -/
structure Row where
  argc : Int
  argv : Nat → Option String
  azColName : Nat → String

/-- Answer of the engine to one `sqlite3_open` call: its return code and the
text `sqlite3_errmsg` reports afterwards. -/
structure OpenAnswer where
  rc : Int
  errmsg : String

/-- Answer of the engine to one `sqlite3_exec` call: the rows for which it
invokes the callback before returning, its return code, the text it leaves in
`zErrMsg`, and the two timer readings taken around the call. -/
structure ExecAnswer where
  rows : List Row
  rc : Int
  zErrMsg : String
  start : Int
  stop : Int

/-- Everything the outside world decides in one run of `app_main`. -/
structure Env where
  mountRet : Int
  esp_err_to_name : Int → String
  open1 : OpenAnswer
  open2 : OpenAnswer
  exec1 : ExecAnswer
  exec2 : ExecAnswer

/-! ## Source functions -/

/-- Source function `openDb(filename, db)`: calls made and return value. -/
def openDb (filename : String) (db : Handle) (a : OpenAnswer) : List Event × Int :=
  let rc := a.rc
  if rc ≠ 0 then
    ([Event.sqliteOpen filename db rc, Event.sqliteErrmsg db,
      Event.printf ("Can't open database: " ++ a.errmsg ++ "\n")], rc)
  else
    ([Event.sqliteOpen filename db rc, Event.printf "Opened database successfully\n"], rc)

/-- Calls made while `sqlite3_exec` runs: the callback is invoked once per row
with the global label `data`, and each of its `printf` texts is one call. -/
def rowPrints (rows : List Row) : List Event :=
  rows.flatMap fun r => (callback data r.argc r.argv r.azColName).1.map Event.printf

/-- Source function `db_exec(db, sql)`: calls made and return value. -/
def db_exec (db : Handle) (sql : String) (a : ExecAnswer) : List Event × Int :=
  let rc := a.rc
  ([Event.printf (sql ++ "\n"), Event.timerRead, Event.sqliteExec db sql rc]
    ++ rowPrints a.rows
    ++ (if rc ≠ SQLITE_OK then
          [Event.printf ("SQL error: " ++ a.zErrMsg ++ "\n"), Event.sqliteFree]
        else
          [Event.printf "Operation done successfully\n"])
    ++ [Event.timerRead, Event.printf ("Time taken: " ++ toString (a.stop - a.start) ++ "\n")],
   rc)

/-- Local `mount_config` of `init_sdcard`. -/
def mount_config : MountConfig :=
  ⟨false, 5, 16 * 1024⟩

/-- Error text of `init_sdcard` for a mount result equal to `ESP_FAIL`. -/
def mountFailedMsg : String :=
  "Failed to mount filesystem. "
    ++ "If you want the card to be formatted, set format_if_mount_failed = true."

/-- Error text of `init_sdcard` for any other failing mount result, with the
name `esp_err_to_name` gives that result. -/
def cardInitFailedMsg (errName : String) : String :=
  "Failed to initialize the card (" ++ errName ++ "). "
    ++ "Make sure SD card lines have pull-up resistors in place."

/-- Source function `init_sdcard()`: calls made and return value, given the
result `ret` of the mount call and the name `errName` that `esp_err_to_name`
gives it. -/
def init_sdcard (ret : Int) (errName : String) : List Event × Int :=
  let pre := [Event.logI TAG "Using SDMMC peripheral",
    Event.gpioPullUp 15, Event.gpioPullUp 2, Event.gpioPullUp 4, Event.gpioPullUp 12,
    Event.gpioPullUp 13, Event.mount "/sdcard" mount_config ret]
  if ret ≠ ESP_OK then
    if ret = ESP_FAIL then
      (pre ++ [Event.logE TAG mountFailedMsg], ESP_FAIL)
    else
      (pre ++ [Event.logE TAG (cardInitFailedMsg errName)], ESP_FAIL)
  else
    (pre ++ [Event.cardInfo], ESP_OK)

/-- Source function `select_data()`: calls made.  The global `rc` it assigns is
read nowhere else. -/
def select_data (e1 e2 : ExecAnswer) : List Event :=
  let r1 := db_exec Handle.db1 "Select * from albums where AlbumId < '10'" e1
  if r1.2 ≠ SQLITE_OK then
    r1.1 ++ [Event.sqliteClose Handle.db1, Event.sqliteClose Handle.db2]
  else
    let r2 := db_exec Handle.db2 "Select * from domain_rank where domain = 'zoho.com'" e2
    if r2.2 ≠ SQLITE_OK then
      r1.1 ++ r2.1 ++ [Event.sqliteClose Handle.db1, Event.sqliteClose Handle.db2]
    else
      r1.1 ++ r2.1

/-- Modelled from the spec: the `ESP_ERROR_CHECK` macro of `esp_err.h`, which
is not part of the repository sources.  The spec says that a failure of the
mount step "halts the whole process (fatal)": the check lets the program
continue exactly when the code is `ESP_OK`. -/
def ESP_ERROR_CHECK (x : Int) : Bool :=
  decide (x = ESP_OK)

/-- Source function `app_main()`: every external call of one run, in order.
An early `return` (or the stop forced by `ESP_ERROR_CHECK`) ends the list. -/
def app_main (env : Env) : List Event :=
  let r0 := init_sdcard env.mountRet (env.esp_err_to_name env.mountRet)
  [Event.logI TAG "Initializing SD card"] ++ r0.1 ++
    if ESP_ERROR_CHECK r0.2 = false then
      [Event.abort]
    else
      let o1 := openDb "/sdcard/chinook.db" Handle.db1 env.open1
      [Event.sqliteInit, Event.logI TAG "Opening db chinook"] ++ o1.1 ++
        if o1.2 ≠ 0 then
          []
        else
          let o2 := openDb "/sdcard/mdr512.db" Handle.db2 env.open2
          [Event.logI TAG "Opening db mdr512"] ++ o2.1 ++
            if o2.2 ≠ 0 then
              []
            else
              select_data env.exec1 env.exec2
                ++ [Event.sqliteClose Handle.db1, Event.sqliteClose Handle.db2,
                    Event.unmount "/sdcard", Event.logI TAG "Card unmounted"]

/-! ## Observations on a run -/

/-- Storage operations: mounting, unmounting, and the calls that open, query
or close a database connection.  Logging, pin set-up, engine start-up, timer
reads and printing are not storage operations. -/
def isStorageOp : Event → Bool
  | Event.mount _ _ _ => true
  | Event.sqliteOpen _ _ _ => true
  | Event.sqliteExec _ _ _ => true
  | Event.sqliteClose _ => true
  | Event.unmount _ => true
  | _ => false

/-- The storage operations of a run, in order. -/
def storageOps (t : List Event) : List Event :=
  t.filter isStorageOp

/-- Recogniser of `sqlite3_open` calls. -/
def isOpen : Event → Bool
  | Event.sqliteOpen _ _ _ => true
  | _ => false

/-- Recogniser of `sqlite3_open` calls that stored a connection in `h` and
returned 0. -/
def isOpenedOf (h : Handle) : Event → Bool
  | Event.sqliteOpen _ db rc => decide (db = h) && decide (rc = 0)
  | _ => false

/-- Recogniser of `sqlite3_exec` calls. -/
def isExec : Event → Bool
  | Event.sqliteExec _ _ _ => true
  | _ => false

/-- Recogniser of `sqlite3_exec` calls on connection `h`. -/
def isExecOn (h : Handle) : Event → Bool
  | Event.sqliteExec db _ _ => decide (db = h)
  | _ => false

/-- Recogniser of `sqlite3_exec` calls that returned a code other than
`SQLITE_OK`. -/
def isFailedExec : Event → Bool
  | Event.sqliteExec _ _ rc => decide (rc ≠ SQLITE_OK)
  | _ => false

/-- Recogniser of `sqlite3_close` calls. -/
def isClose : Event → Bool
  | Event.sqliteClose _ => true
  | _ => false

/-- Recogniser of `sqlite3_close` calls on connection `h`. -/
def isCloseOf (h : Handle) : Event → Bool
  | Event.sqliteClose db => decide (db = h)
  | _ => false

/-- Recogniser of unmount calls. -/
def isUnmount : Event → Bool
  | Event.unmount _ => true
  | _ => false

/-- An execute or a close applied to connection `h`. -/
def usesHandle (h : Handle) (e : Event) : Bool :=
  isExecOn h e || isCloseOf h e

/-- Number of `sqlite3_close` calls on connection `h` in a run. -/
def closeCount (h : Handle) (t : List Event) : Nat :=
  t.countP (isCloseOf h)

/-- Number of unmount calls in a run. -/
def unmountCount (t : List Event) : Nat :=
  t.countP isUnmount

/-- Connection `h` was opened successfully somewhere in the run. -/
def wasOpened (h : Handle) (t : List Event) : Bool :=
  t.any (isOpenedOf h)

/-- Some query of the run returned a code other than `SQLITE_OK`. -/
def queryFailed (t : List Event) : Bool :=
  t.any isFailedExec

/-- Some close of connection `h` is followed, later in the run, by an execute
or a close on the same connection. -/
def useAfterClose (h : Handle) : List Event → Bool
  | [] => false
  | e :: rest => (isCloseOf h e && rest.any (usesHandle h)) || useAfterClose h rest

/-- Effect of one call on the open/closed status of connection `h`: a
successful open makes it open, a close makes it closed. -/
def stepOpen (h : Handle) (s : Bool) : Event → Bool
  | Event.sqliteOpen _ db rc => if db = h ∧ rc = 0 then true else s
  | Event.sqliteClose db => if db = h then false else s
  | _ => s

/-- Connection `h` is open after the calls of `t` (no connection is open
before the run starts). -/
def handleOpen (h : Handle) (t : List Event) : Bool :=
  t.foldl (stepOpen h) false

/-! ## Sample runs -/

/-- A two-column row with a null second value. -/
def sampleRow : Row :=
  ⟨2, fun i => if i = 0 then some "1" else none, fun i => if i = 0 then "AlbumId" else "Title"⟩

/-- A successful `sqlite3_exec` that produced one row. -/
def execOk : ExecAnswer :=
  ⟨[sampleRow], 0, "", 100, 250⟩

/-- A `sqlite3_exec` that failed with `SQLITE_ERROR` (1) before any row. -/
def execErr : ExecAnswer :=
  ⟨[], 1, "no such table", 100, 120⟩

/-- A successful `sqlite3_open`. -/
def openOk : OpenAnswer :=
  ⟨0, "not an error"⟩

/-- A `sqlite3_open` that failed with `SQLITE_CANTOPEN` (14). -/
def openErr : OpenAnswer :=
  ⟨14, "unable to open database file"⟩

/-- Name table standing for `esp_err_to_name`. -/
def sampleErrName (code : Int) : String :=
  if code = 263 then "ESP_ERR_TIMEOUT" else "UNKNOWN ERROR"

/-- Run in which every operation succeeds. -/
def envAllOk : Env :=
  ⟨ESP_OK, sampleErrName, openOk, openOk, execOk, execOk⟩

/-- Run in which the card does not answer: the mount returns
`ESP_ERR_TIMEOUT` (0x107). -/
def envMountTimeout : Env :=
  ⟨263, sampleErrName, openOk, openOk, execOk, execOk⟩

/-- Run in which the first database cannot be opened. -/
def envOpen1Fails : Env :=
  ⟨ESP_OK, sampleErrName, openErr, openOk, execOk, execOk⟩

/-- Run in which the second database cannot be opened. -/
def envOpen2Fails : Env :=
  ⟨ESP_OK, sampleErrName, openOk, openErr, execOk, execOk⟩

/-- Run in which the first query fails. -/
def envQuery1Fails : Env :=
  ⟨ESP_OK, sampleErrName, openOk, openOk, execErr, execOk⟩

/-- Run in which the second query fails. -/
def envQuery2Fails : Env :=
  ⟨ESP_OK, sampleErrName, openOk, openOk, execOk, execErr⟩

/-! ## The row callback -/

/-- Closed form of the column loop resumed at column `i`, for every iteration
bound that covers the columns still to print: the loop is never cut short. -/
theorem callbackLoop_eq (argc : Int) (argv : Nat → Option String) (azColName : Nat → String)
    (k : Nat) : ∀ fuel i : Nat, argc.toNat - i = k → k ≤ fuel →
      callbackLoop argc argv azColName fuel i =
        (List.range' i k).map
          (fun j => azColName j ++ " = " ++ (argv j).getD "NULL" ++ "\n") := by
  induction k with
  | zero =>
    intro fuel i h _
    cases fuel with
    | zero => rfl
    | succ f =>
      rw [callbackLoop, if_neg (by omega)]
      rfl
  | succ k ih =>
    intro fuel i h hf
    cases fuel with
    | zero => omega
    | succ f =>
      rw [callbackLoop, if_pos (by omega), ih f (i + 1) (by omega) (by omega),
        List.range'_succ, List.map_cons]
      cases argv i <;> rfl

/-- C8: for every label and every row (`argc` columns, names `azColName`,
values `argv`, a null value being `none`), `callback` prints the label line
`<data>: `, then for each column `0 .. argc-1` in order exactly one line
`<name> = <value>` with `NULL` for a null value, then one blank line, and it
returns 0; with zero columns only the label line and the blank line are
printed. -/
theorem callback_prints_row (label : String) (argc : Int) (argv : Nat → Option String)
    (azColName : Nat → String) :
    callback label argc argv azColName =
        ([label ++ ": \n"]
          ++ (List.range argc.toNat).map
              (fun i => azColName i ++ " = " ++ (argv i).getD "NULL" ++ "\n")
          ++ ["\n"], 0)
      ∧ callback label 0 argv azColName = ([label ++ ": \n", "\n"], 0) := by
  constructor
  · rw [callback, callbackLoop_eq argc argv azColName argc.toNat argc.toNat 0 (by omega)
      (Nat.le_refl _), List.range_eq_range']
  · rfl

/-! ## Storage operations of each function -/

theorem storageOps_append (a b : List Event) :
    storageOps (a ++ b) = storageOps a ++ storageOps b := by
  simp [storageOps]

theorem storageOps_nil : storageOps [] = [] := rfl

theorem storageOps_cons (e : Event) (t : List Event) :
    storageOps (e :: t) = if isStorageOp e = true then e :: storageOps t else storageOps t := by
  simp only [storageOps, List.filter_cons]

theorem storageOps_rowPrints (rows : List Row) : storageOps (rowPrints rows) = [] := by
  induction rows with
  | nil => rfl
  | cons r rs ih =>
    have hr : ∀ l : List String, storageOps (l.map Event.printf) = [] := by
      intro l
      induction l with
      | nil => rfl
      | cons x xs ihx => simp [storageOps_cons, isStorageOp, ihx]
    have hc : rowPrints (r :: rs)
        = (callback data r.argc r.argv r.azColName).1.map Event.printf ++ rowPrints rs := by
      simp [rowPrints]
    rw [hc, storageOps_append, hr, ih]
    rfl

theorem storageOps_db_exec (db : Handle) (sql : String) (a : ExecAnswer) :
    storageOps (db_exec db sql a).1 = [Event.sqliteExec db sql a.rc] := by
  simp only [db_exec, storageOps_append, storageOps_rowPrints]
  split <;> simp [storageOps_cons, storageOps_nil, isStorageOp]

theorem storageOps_openDb (filename : String) (db : Handle) (a : OpenAnswer) :
    storageOps (openDb filename db a).1 = [Event.sqliteOpen filename db a.rc] := by
  simp only [openDb]
  split <;> simp [storageOps_cons, storageOps_nil, isStorageOp]

theorem storageOps_init_sdcard (ret : Int) (errName : String) :
    storageOps (init_sdcard ret errName).1 = [Event.mount "/sdcard" mount_config ret] := by
  simp only [init_sdcard]
  split_ifs <;> simp [storageOps_cons, storageOps_nil, storageOps_append, isStorageOp]

theorem db_exec_snd (db : Handle) (sql : String) (a : ExecAnswer) :
    (db_exec db sql a).2 = a.rc := rfl

theorem openDb_snd (filename : String) (db : Handle) (a : OpenAnswer) :
    (openDb filename db a).2 = a.rc := by
  simp only [openDb]
  split <;> rfl

theorem init_sdcard_snd (ret : Int) (errName : String) :
    (init_sdcard ret errName).2 = if ret = ESP_OK then ESP_OK else ESP_FAIL := by
  simp only [init_sdcard]
  split_ifs <;> first | rfl | contradiction

theorem storageOps_select_data (e1 e2 : ExecAnswer) :
    storageOps (select_data e1 e2) =
      Event.sqliteExec Handle.db1 "Select * from albums where AlbumId < '10'" e1.rc ::
        if e1.rc ≠ SQLITE_OK then
          [Event.sqliteClose Handle.db1, Event.sqliteClose Handle.db2]
        else
          Event.sqliteExec Handle.db2 "Select * from domain_rank where domain = 'zoho.com'" e2.rc ::
            if e2.rc ≠ SQLITE_OK then
              [Event.sqliteClose Handle.db1, Event.sqliteClose Handle.db2]
            else
              [] := by
  simp only [select_data, db_exec_snd]
  split_ifs <;>
    simp [storageOps_append, storageOps_db_exec, storageOps_cons, storageOps_nil, isStorageOp]

/-- Storage operations of a whole run, by outcome. -/
theorem storageOps_app_main (env : Env) :
    storageOps (app_main env) =
      Event.mount "/sdcard" mount_config env.mountRet ::
        if env.mountRet ≠ ESP_OK then
          []
        else
          Event.sqliteOpen "/sdcard/chinook.db" Handle.db1 env.open1.rc ::
            if env.open1.rc ≠ 0 then
              []
            else
              Event.sqliteOpen "/sdcard/mdr512.db" Handle.db2 env.open2.rc ::
                if env.open2.rc ≠ 0 then
                  []
                else
                  storageOps (select_data env.exec1 env.exec2)
                    ++ [Event.sqliteClose Handle.db1, Event.sqliteClose Handle.db2,
                        Event.unmount "/sdcard"] := by
  have hne : ESP_FAIL ≠ ESP_OK := by decide
  simp only [app_main, openDb_snd, init_sdcard_snd, ESP_ERROR_CHECK]
  by_cases hm : env.mountRet = ESP_OK <;> by_cases h1 : env.open1.rc = 0 <;>
    by_cases h2 : env.open2.rc = 0 <;>
    simp [hm, h1, h2, hne, storageOps_append, storageOps_init_sdcard, storageOps_openDb,
      storageOps_cons, storageOps_nil, isStorageOp]

/-! ## Observations only depend on the storage operations -/

theorem mem_storageOps (e : Event) (t : List Event) :
    e ∈ storageOps t ↔ e ∈ t ∧ isStorageOp e = true := by
  simp [storageOps]

theorem countP_storageOps (p : Event → Bool) (hp : ∀ e, p e = true → isStorageOp e = true)
    (t : List Event) : (storageOps t).countP p = t.countP p := by
  induction t with
  | nil => rfl
  | cons e t ih =>
    rw [storageOps_cons]
    by_cases hs : isStorageOp e = true
    · rw [if_pos hs, List.countP_cons, List.countP_cons, ih]
    · have hpe : ¬ p e = true := fun h => hs (hp e h)
      rw [if_neg hs, List.countP_cons, ih, if_neg hpe]
      rfl

theorem any_storageOps (p : Event → Bool) (hp : ∀ e, p e = true → isStorageOp e = true)
    (t : List Event) : (storageOps t).any p = t.any p := by
  induction t with
  | nil => rfl
  | cons e t ih =>
    rw [storageOps_cons]
    by_cases hs : isStorageOp e = true
    · rw [if_pos hs, List.any_cons, List.any_cons, ih]
    · have hpe : p e = false := by
        cases h : p e
        · rfl
        · exact absurd (hp e h) hs
      rw [if_neg hs, List.any_cons, ih, hpe]
      rfl

theorem isOpen_storage (e : Event) (h : isOpen e = true) : isStorageOp e = true := by
  cases e <;> simp_all [isOpen, isStorageOp]

theorem isOpenedOf_storage (d : Handle) (e : Event) (h : isOpenedOf d e = true) :
    isStorageOp e = true := by
  cases e <;> simp_all [isOpenedOf, isStorageOp]

theorem isExec_storage (e : Event) (h : isExec e = true) : isStorageOp e = true := by
  cases e <;> simp_all [isExec, isStorageOp]

theorem isExecOn_storage (d : Handle) (e : Event) (h : isExecOn d e = true) :
    isStorageOp e = true := by
  cases e <;> simp_all [isExecOn, isStorageOp]

theorem isFailedExec_storage (e : Event) (h : isFailedExec e = true) :
    isStorageOp e = true := by
  cases e <;> simp_all [isFailedExec, isStorageOp]

theorem isClose_storage (e : Event) (h : isClose e = true) : isStorageOp e = true := by
  cases e <;> simp_all [isClose, isStorageOp]

theorem isCloseOf_storage (d : Handle) (e : Event) (h : isCloseOf d e = true) :
    isStorageOp e = true := by
  cases e <;> simp_all [isCloseOf, isStorageOp]

theorem isUnmount_storage (e : Event) (h : isUnmount e = true) : isStorageOp e = true := by
  cases e <;> simp_all [isUnmount, isStorageOp]

theorem usesHandle_storage (d : Handle) (e : Event) (h : usesHandle d e = true) :
    isStorageOp e = true := by
  cases e <;> simp_all [usesHandle, isExecOn, isCloseOf, isStorageOp]

theorem useAfterClose_storageOps (d : Handle) (t : List Event) :
    useAfterClose d (storageOps t) = useAfterClose d t := by
  induction t with
  | nil => rfl
  | cons e t ih =>
    rw [storageOps_cons]
    by_cases hs : isStorageOp e = true
    · rw [if_pos hs, useAfterClose, useAfterClose, ih,
        any_storageOps (usesHandle d) (usesHandle_storage d)]
    · have hc : isCloseOf d e = false := by
        cases h : isCloseOf d e
        · rfl
        · exact absurd (isCloseOf_storage d e h) hs
      rw [if_neg hs, useAfterClose, ih, hc]
      rfl

theorem foldl_stepOpen_storageOps (d : Handle) (t : List Event) :
    ∀ s : Bool, (storageOps t).foldl (stepOpen d) s = t.foldl (stepOpen d) s := by
  induction t with
  | nil => intro s; rfl
  | cons e t ih =>
    intro s
    rw [storageOps_cons]
    by_cases hs : isStorageOp e = true
    · rw [if_pos hs, List.foldl_cons, List.foldl_cons, ih]
    · have hst : stepOpen d s e = s := by
        cases e <;> simp_all [stepOpen, isStorageOp]
      rw [if_neg hs, List.foldl_cons, ih, hst]

theorem handleOpen_storageOps (d : Handle) (t : List Event) :
    handleOpen d (storageOps t) = handleOpen d t :=
  foldl_stepOpen_storageOps d t false

/-! ## Mounting -/

/-- The two error texts of `init_sdcard` never coincide. -/
theorem mountFailedMsg_ne_cardInitFailedMsg (errName : String) :
    mountFailedMsg ≠ cardInitFailedMsg errName := by
  intro h
  have h2 := congrArg String.data h
  simp only [mountFailedMsg, cardInitFailedMsg, String.data_append] at h2
  have h3 := congrArg (fun l => l.take 11) h2
  simp at h3

/-- C9: `init_sdcard` returns `ESP_OK` exactly when the mount call returns
`ESP_OK` and returns `ESP_FAIL` for every other mount result; the
filesystem-mount-failure text is logged exactly when the mount result is
`ESP_FAIL`, and the card-initialization-failure text exactly for the other
non-OK results. -/
theorem init_sdcard_result (ret : Int) (errName : String) :
    ((init_sdcard ret errName).2 = ESP_OK ↔ ret = ESP_OK)
      ∧ (init_sdcard ret errName).2 = (if ret = ESP_OK then ESP_OK else ESP_FAIL)
      ∧ (Event.logE TAG mountFailedMsg ∈ (init_sdcard ret errName).1 ↔ ret = ESP_FAIL)
      ∧ (Event.logE TAG (cardInitFailedMsg errName) ∈ (init_sdcard ret errName).1
          ↔ (ret ≠ ESP_OK ∧ ret ≠ ESP_FAIL)) := by
  have hne : ESP_FAIL ≠ ESP_OK := by decide
  have hmsg := mountFailedMsg_ne_cardInitFailedMsg errName
  refine ⟨?_, init_sdcard_snd ret errName, ?_, ?_⟩
  · rw [init_sdcard_snd]
    by_cases h : ret = ESP_OK <;> simp [h, hne]
  · simp only [init_sdcard]
    by_cases h : ret = ESP_OK
    · subst h
      simp [hne.symm]
    · by_cases hf : ret = ESP_FAIL
      · simp [h, hf, hne]
      · simp [h, hf, hmsg]
  · simp only [init_sdcard]
    by_cases h : ret = ESP_OK
    · subst h
      simp
    · by_cases hf : ret = ESP_FAIL
      · simp [h, hf, hne, hmsg.symm]
      · simp [h, hf]

/-! ## The driver: runs that stop early -/

/-- C4: for every failing mount result, `app_main` stops right after
`init_sdcard`: the run is the start-up log, the calls of `init_sdcard` and the
fatal stop, and it contains no database open, no query, no close and no
unmount. -/
theorem app_main_mount_failure (env : Env) (hm : env.mountRet ≠ ESP_OK) :
    app_main env =
        Event.logI TAG "Initializing SD card" ::
          (init_sdcard env.mountRet (env.esp_err_to_name env.mountRet)).1 ++ [Event.abort]
      ∧ storageOps (app_main env) = [Event.mount "/sdcard" mount_config env.mountRet]
      ∧ ∀ e ∈ app_main env,
          isOpen e = false ∧ isExec e = false ∧ isClose e = false ∧ isUnmount e = false := by
  have hne : ESP_FAIL ≠ ESP_OK := by decide
  have hs : storageOps (app_main env) = [Event.mount "/sdcard" mount_config env.mountRet] := by
    rw [storageOps_app_main, if_pos hm]
  refine ⟨?_, hs, ?_⟩
  · simp [app_main, init_sdcard_snd, ESP_ERROR_CHECK, hm, hne]
  · intro e he
    have key : ∀ p : Event → Bool, (∀ x, p x = true → isStorageOp x = true) →
        p (Event.mount "/sdcard" mount_config env.mountRet) = false → p e = false := by
      intro p hp hmount
      cases hpe : p e
      · rfl
      · have hmem : e ∈ storageOps (app_main env) := (mem_storageOps e _).2 ⟨he, hp e hpe⟩
        rw [hs, List.mem_singleton] at hmem
        rw [hmem, hmount] at hpe
        exact hpe.symm
    exact ⟨key isOpen isOpen_storage rfl, key isExec isExec_storage rfl,
      key isClose isClose_storage rfl, key isUnmount isUnmount_storage rfl⟩

/-- Witness for C4: the mount times out (`ESP_ERR_TIMEOUT`, 0x107). -/
theorem app_main_mount_failure_witness :
    envMountTimeout.mountRet ≠ ESP_OK
      ∧ app_main envMountTimeout =
          Event.logI TAG "Initializing SD card" ::
            (init_sdcard 263 "ESP_ERR_TIMEOUT").1 ++ [Event.abort]
      ∧ storageOps (app_main envMountTimeout) = [Event.mount "/sdcard" mount_config 263]
      ∧ ∀ e ∈ app_main envMountTimeout,
          isOpen e = false ∧ isExec e = false ∧ isClose e = false ∧ isUnmount e = false :=
  ⟨by decide, app_main_mount_failure envMountTimeout (by decide)⟩

/-- C5: when the mount succeeds and opening `chinook.db` returns non-zero,
`app_main` returns after that open: the only storage operations are the mount
and the failed open, so the second database is not opened and no query is
executed. -/
theorem app_main_open1_failure (env : Env) (hm : env.mountRet = ESP_OK)
    (h1 : env.open1.rc ≠ 0) :
    storageOps (app_main env) =
        [Event.mount "/sdcard" mount_config ESP_OK,
         Event.sqliteOpen "/sdcard/chinook.db" Handle.db1 env.open1.rc]
      ∧ (app_main env).countP isOpen = 1
      ∧ (app_main env).any isExec = false
      ∧ Event.abort ∉ app_main env := by
  have hs : storageOps (app_main env) =
      [Event.mount "/sdcard" mount_config ESP_OK,
       Event.sqliteOpen "/sdcard/chinook.db" Handle.db1 env.open1.rc] := by
    rw [storageOps_app_main, hm]
    simp [h1]
  refine ⟨hs, ?_, ?_, ?_⟩
  · rw [← countP_storageOps isOpen isOpen_storage, hs]
    rfl
  · rw [← any_storageOps isExec isExec_storage, hs]
    rfl
  · simp [app_main, init_sdcard, openDb, ESP_ERROR_CHECK, hm, h1]

/-- Witness for C5: `chinook.db` cannot be opened (`SQLITE_CANTOPEN`). -/
theorem app_main_open1_failure_witness :
    envOpen1Fails.mountRet = ESP_OK ∧ envOpen1Fails.open1.rc ≠ 0
      ∧ storageOps (app_main envOpen1Fails) =
          [Event.mount "/sdcard" mount_config ESP_OK,
           Event.sqliteOpen "/sdcard/chinook.db" Handle.db1 14]
      ∧ (app_main envOpen1Fails).countP isOpen = 1
      ∧ (app_main envOpen1Fails).any isExec = false
      ∧ Event.abort ∉ app_main envOpen1Fails :=
  ⟨rfl, by decide, app_main_open1_failure envOpen1Fails rfl (by decide)⟩

/-- C6: when the mount and the first open succeed and opening `mdr512.db`
returns non-zero, `app_main` returns after that open without executing any
query. -/
theorem app_main_open2_failure (env : Env) (hm : env.mountRet = ESP_OK)
    (h1 : env.open1.rc = 0) (h2 : env.open2.rc ≠ 0) :
    storageOps (app_main env) =
        [Event.mount "/sdcard" mount_config ESP_OK,
         Event.sqliteOpen "/sdcard/chinook.db" Handle.db1 0,
         Event.sqliteOpen "/sdcard/mdr512.db" Handle.db2 env.open2.rc]
      ∧ (app_main env).any isExec = false
      ∧ Event.abort ∉ app_main env := by
  have hs : storageOps (app_main env) =
      [Event.mount "/sdcard" mount_config ESP_OK,
       Event.sqliteOpen "/sdcard/chinook.db" Handle.db1 0,
       Event.sqliteOpen "/sdcard/mdr512.db" Handle.db2 env.open2.rc] := by
    rw [storageOps_app_main, hm, h1]
    simp [h2]
  refine ⟨hs, ?_, ?_⟩
  · rw [← any_storageOps isExec isExec_storage, hs]
    rfl
  · simp [app_main, init_sdcard, openDb, ESP_ERROR_CHECK, hm, h1, h2]

/-- Witness for C6: `mdr512.db` cannot be opened (`SQLITE_CANTOPEN`). -/
theorem app_main_open2_failure_witness :
    envOpen2Fails.mountRet = ESP_OK ∧ envOpen2Fails.open1.rc = 0
      ∧ envOpen2Fails.open2.rc ≠ 0
      ∧ storageOps (app_main envOpen2Fails) =
          [Event.mount "/sdcard" mount_config ESP_OK,
           Event.sqliteOpen "/sdcard/chinook.db" Handle.db1 0,
           Event.sqliteOpen "/sdcard/mdr512.db" Handle.db2 14]
      ∧ (app_main envOpen2Fails).any isExec = false
      ∧ Event.abort ∉ app_main envOpen2Fails :=
  ⟨rfl, rfl, by decide, app_main_open2_failure envOpen2Fails rfl rfl (by decide)⟩

/-! ## Queries -/

/-- C7: in `select_data`, when either fixed query returns a code other than
`SQLITE_OK`, the function closes `db1` and `db2` and returns right after; when
the first query fails the second one is never issued (one execute in all),
otherwise both were issued. -/
theorem select_data_failure (e1 e2 : ExecAnswer)
    (h : e1.rc ≠ SQLITE_OK ∨ e2.rc ≠ SQLITE_OK) :
    select_data e1 e2 =
        (if e1.rc ≠ SQLITE_OK then
          (db_exec Handle.db1 "Select * from albums where AlbumId < '10'" e1).1
        else
          (db_exec Handle.db1 "Select * from albums where AlbumId < '10'" e1).1
            ++ (db_exec Handle.db2 "Select * from domain_rank where domain = 'zoho.com'" e2).1)
          ++ [Event.sqliteClose Handle.db1, Event.sqliteClose Handle.db2]
      ∧ storageOps (select_data e1 e2) =
          (if e1.rc ≠ SQLITE_OK then
            [Event.sqliteExec Handle.db1 "Select * from albums where AlbumId < '10'" e1.rc,
             Event.sqliteClose Handle.db1, Event.sqliteClose Handle.db2]
          else
            [Event.sqliteExec Handle.db1 "Select * from albums where AlbumId < '10'" e1.rc,
             Event.sqliteExec Handle.db2 "Select * from domain_rank where domain = 'zoho.com'"
               e2.rc,
             Event.sqliteClose Handle.db1, Event.sqliteClose Handle.db2])
      ∧ (select_data e1 e2).countP (isExecOn Handle.db2)
          = (if e1.rc ≠ SQLITE_OK then 0 else 1) := by
  have hs := storageOps_select_data e1 e2
  by_cases h1 : e1.rc = SQLITE_OK
  · have h2 : e2.rc ≠ SQLITE_OK := by
      rcases h with h | h
      · exact absurd h1 h
      · exact h
    refine ⟨?_, ?_, ?_⟩
    · simp [select_data, db_exec_snd, h1, h2]
    · rw [hs]
      simp [h1, h2]
    · rw [← countP_storageOps (isExecOn Handle.db2) (isExecOn_storage Handle.db2), hs]
      simp [h1, h2, isExecOn]
  · refine ⟨?_, ?_, ?_⟩
    · simp [select_data, db_exec_snd, h1]
    · rw [hs]
      simp [h1]
    · rw [← countP_storageOps (isExecOn Handle.db2) (isExecOn_storage Handle.db2), hs]
      simp [h1, isExecOn]

/-- Witness for C7: the first query fails with `SQLITE_ERROR`. -/
theorem select_data_failure_witness :
    (execErr.rc ≠ SQLITE_OK ∨ execOk.rc ≠ SQLITE_OK)
      ∧ select_data execErr execOk =
          (db_exec Handle.db1 "Select * from albums where AlbumId < '10'" execErr).1
            ++ [Event.sqliteClose Handle.db1, Event.sqliteClose Handle.db2]
      ∧ storageOps (select_data execErr execOk) =
          [Event.sqliteExec Handle.db1 "Select * from albums where AlbumId < '10'" 1,
           Event.sqliteClose Handle.db1, Event.sqliteClose Handle.db2]
      ∧ (select_data execErr execOk).countP (isExecOn Handle.db2) = 0 :=
  ⟨Or.inl (by decide), select_data_failure execErr execOk (Or.inl (by decide))⟩

/-! ## The driver: complete runs -/

/-- C1: when the mount, both opens and both queries succeed, the storage
operations of `app_main` are exactly: mount `/sdcard`, open `chinook.db` into
`db1`, open `mdr512.db` into `db2`, run the first fixed query on `db1`, run
the second fixed query on `db2`, close `db1`, close `db2`, unmount `/sdcard`;
exactly one query is issued on each database. -/
theorem app_main_success_sequence (env : Env) (hm : env.mountRet = ESP_OK)
    (h1 : env.open1.rc = 0) (h2 : env.open2.rc = 0)
    (hq1 : env.exec1.rc = SQLITE_OK) (hq2 : env.exec2.rc = SQLITE_OK) :
    storageOps (app_main env) =
        [Event.mount "/sdcard" mount_config ESP_OK,
         Event.sqliteOpen "/sdcard/chinook.db" Handle.db1 0,
         Event.sqliteOpen "/sdcard/mdr512.db" Handle.db2 0,
         Event.sqliteExec Handle.db1 "Select * from albums where AlbumId < '10'" SQLITE_OK,
         Event.sqliteExec Handle.db2 "Select * from domain_rank where domain = 'zoho.com'"
           SQLITE_OK,
         Event.sqliteClose Handle.db1,
         Event.sqliteClose Handle.db2,
         Event.unmount "/sdcard"]
      ∧ (app_main env).countP (isExecOn Handle.db1) = 1
      ∧ (app_main env).countP (isExecOn Handle.db2) = 1 := by
  have hs : storageOps (app_main env) =
      [Event.mount "/sdcard" mount_config ESP_OK,
       Event.sqliteOpen "/sdcard/chinook.db" Handle.db1 0,
       Event.sqliteOpen "/sdcard/mdr512.db" Handle.db2 0,
       Event.sqliteExec Handle.db1 "Select * from albums where AlbumId < '10'" SQLITE_OK,
       Event.sqliteExec Handle.db2 "Select * from domain_rank where domain = 'zoho.com'"
         SQLITE_OK,
       Event.sqliteClose Handle.db1,
       Event.sqliteClose Handle.db2,
       Event.unmount "/sdcard"] := by
    rw [storageOps_app_main, storageOps_select_data, hm, h1, h2, hq1, hq2]
    simp
  refine ⟨hs, ?_, ?_⟩
  · rw [← countP_storageOps (isExecOn Handle.db1) (isExecOn_storage Handle.db1), hs]
    rfl
  · rw [← countP_storageOps (isExecOn Handle.db2) (isExecOn_storage Handle.db2), hs]
    rfl

/-- Witness for C1: the run in which every operation succeeds. -/
theorem app_main_success_sequence_witness :
    envAllOk.mountRet = ESP_OK ∧ envAllOk.open1.rc = 0 ∧ envAllOk.open2.rc = 0
      ∧ envAllOk.exec1.rc = SQLITE_OK ∧ envAllOk.exec2.rc = SQLITE_OK
      ∧ storageOps (app_main envAllOk) =
          [Event.mount "/sdcard" mount_config ESP_OK,
           Event.sqliteOpen "/sdcard/chinook.db" Handle.db1 0,
           Event.sqliteOpen "/sdcard/mdr512.db" Handle.db2 0,
           Event.sqliteExec Handle.db1 "Select * from albums where AlbumId < '10'" SQLITE_OK,
           Event.sqliteExec Handle.db2 "Select * from domain_rank where domain = 'zoho.com'"
             SQLITE_OK,
           Event.sqliteClose Handle.db1,
           Event.sqliteClose Handle.db2,
           Event.unmount "/sdcard"]
      ∧ (app_main envAllOk).countP (isExecOn Handle.db1) = 1
      ∧ (app_main envAllOk).countP (isExecOn Handle.db2) = 1 :=
  ⟨rfl, rfl, rfl, rfl, rfl, app_main_success_sequence envAllOk rfl rfl rfl rfl rfl⟩

/-- Storage operations of a run that reached the queries. -/
theorem storageOps_app_main_queried (env : Env) (hm : env.mountRet = ESP_OK)
    (h1 : env.open1.rc = 0) (h2 : env.open2.rc = 0) :
    storageOps (app_main env) =
      [Event.mount "/sdcard" mount_config ESP_OK,
       Event.sqliteOpen "/sdcard/chinook.db" Handle.db1 0,
       Event.sqliteOpen "/sdcard/mdr512.db" Handle.db2 0]
      ++ storageOps (select_data env.exec1 env.exec2)
      ++ [Event.sqliteClose Handle.db1, Event.sqliteClose Handle.db2,
          Event.unmount "/sdcard"] := by
  rw [storageOps_app_main, hm, h1, h2]
  simp

/-- C2 (fails as stated): the mount succeeds and `chinook.db` cannot be
opened; the run ends at the failed open and never unmounts. -/
theorem app_main_unmount_counterexample :
    envOpen1Fails.mountRet = ESP_OK
      ∧ unmountCount (app_main envOpen1Fails) = 0
      ∧ (storageOps (app_main envOpen1Fails)).getLast?
          = some (Event.sqliteOpen "/sdcard/chinook.db" Handle.db1 14) := by
  decide

/-- C2 (amended): in every run of `app_main` in which the mount and both opens
succeeded, whatever the query outcomes, the mount point is unmounted exactly
once, and that unmount is the last storage operation of the run. -/
theorem app_main_unmount_once (env : Env) (hm : env.mountRet = ESP_OK)
    (h1 : env.open1.rc = 0) (h2 : env.open2.rc = 0) :
    unmountCount (app_main env) = 1
      ∧ (app_main env).count (Event.unmount "/sdcard") = 1
      ∧ (storageOps (app_main env)).getLast? = some (Event.unmount "/sdcard") := by
  have hs := storageOps_app_main_queried env hm h1 h2
  have hsel := storageOps_select_data env.exec1 env.exec2
  have hcount : unmountCount (app_main env) = 1 := by
    rw [unmountCount, ← countP_storageOps isUnmount isUnmount_storage, hs, hsel]
    by_cases hq1 : env.exec1.rc = SQLITE_OK <;> by_cases hq2 : env.exec2.rc = SQLITE_OK <;>
      simp [hq1, hq2, isUnmount]
  refine ⟨hcount, ?_, ?_⟩
  · have hp : ∀ e, (e == Event.unmount "/sdcard") = true → isStorageOp e = true := by
      intro e he
      rw [beq_iff_eq] at he
      rw [he]
      rfl
    rw [List.count, ← countP_storageOps _ hp, hs, hsel]
    by_cases hq1 : env.exec1.rc = SQLITE_OK <;> by_cases hq2 : env.exec2.rc = SQLITE_OK <;>
      simp [hq1, hq2]
  · rw [hs, List.getLast?_append]
    rfl

/-- Witness for C2 (amended): a run whose first query fails. -/
theorem app_main_unmount_once_witness :
    envQuery1Fails.mountRet = ESP_OK ∧ envQuery1Fails.open1.rc = 0
      ∧ envQuery1Fails.open2.rc = 0
      ∧ unmountCount (app_main envQuery1Fails) = 1
      ∧ (app_main envQuery1Fails).count (Event.unmount "/sdcard") = 1
      ∧ (storageOps (app_main envQuery1Fails)).getLast? = some (Event.unmount "/sdcard") :=
  ⟨rfl, rfl, rfl, app_main_unmount_once envQuery1Fails rfl rfl rfl⟩

/-! ## Release of the database connections -/

/-- C3 (fails as stated): the mount and the first open succeed and
`mdr512.db` cannot be opened; `db1` was opened and the run ends without any
`sqlite3_close` on it. -/
theorem app_main_release_counterexample :
    wasOpened Handle.db1 (app_main envOpen2Fails) = true
      ∧ closeCount Handle.db1 (app_main envOpen2Fails) = 0 := by
  decide

/-- C3 (amended): in every run of `app_main` in which no issued query fails,
no execute or close is applied to a connection after its close, and each
connection is closed exactly once when the mount and both opens succeeded and
is not closed at all otherwise; `db1` is opened and left unclosed when only
the second open fails. -/
theorem app_main_handle_release (env : Env) (hq : queryFailed (app_main env) = false)
    (h : Handle) :
    useAfterClose h (app_main env) = false
      ∧ closeCount h (app_main env)
          = (if env.mountRet = ESP_OK ∧ env.open1.rc = 0 ∧ env.open2.rc = 0 then 1 else 0)
      ∧ wasOpened h (app_main env)
          = decide (env.mountRet = ESP_OK ∧ env.open1.rc = 0
              ∧ (h = Handle.db1 ∨ env.open2.rc = 0)) := by
  have hs := storageOps_app_main env
  have hsel := storageOps_select_data env.exec1 env.exec2
  rw [queryFailed, ← any_storageOps isFailedExec isFailedExec_storage, hs, hsel] at hq
  rw [← useAfterClose_storageOps, closeCount,
    ← countP_storageOps (isCloseOf h) (isCloseOf_storage h), wasOpened,
    ← any_storageOps (isOpenedOf h) (isOpenedOf_storage h), hs, hsel]
  by_cases hm : env.mountRet = ESP_OK <;> by_cases h1 : env.open1.rc = 0 <;>
    by_cases h2 : env.open2.rc = 0 <;> by_cases hq1 : env.exec1.rc = SQLITE_OK <;>
    by_cases hq2 : env.exec2.rc = SQLITE_OK <;> cases h <;>
    simp_all [useAfterClose, usesHandle, isCloseOf, isExecOn, isOpenedOf, isFailedExec]

/-- Witness for C3 (amended): the run in which every operation succeeds. -/
theorem app_main_handle_release_witness :
    queryFailed (app_main envAllOk) = false
      ∧ useAfterClose Handle.db1 (app_main envAllOk) = false
      ∧ closeCount Handle.db1 (app_main envAllOk) = 1
      ∧ wasOpened Handle.db1 (app_main envAllOk) = true :=
  ⟨by decide, app_main_handle_release envAllOk (by decide) Handle.db1⟩

/-- When a query fails, `select_data` closes both connections and `app_main`
closes them again: each connection is closed twice, the second close coming
after the first. -/
theorem app_main_closes_twice_after_failed_query (env : Env) (hm : env.mountRet = ESP_OK)
    (h1 : env.open1.rc = 0) (h2 : env.open2.rc = 0)
    (hq : env.exec1.rc ≠ SQLITE_OK ∨ env.exec2.rc ≠ SQLITE_OK) (h : Handle) :
    closeCount h (app_main env) = 2 ∧ useAfterClose h (app_main env) = true := by
  have hs := storageOps_app_main_queried env hm h1 h2
  have hsel := storageOps_select_data env.exec1 env.exec2
  rw [← useAfterClose_storageOps, closeCount,
    ← countP_storageOps (isCloseOf h) (isCloseOf_storage h), hs, hsel]
  by_cases hq1 : env.exec1.rc = SQLITE_OK <;> by_cases hq2 : env.exec2.rc = SQLITE_OK <;>
    cases h <;>
    simp_all [useAfterClose, usesHandle, isCloseOf, isExecOn]

/-- The first query fails: `db1` is closed twice. -/
theorem app_main_closes_twice_example :
    closeCount Handle.db1 (app_main envQuery1Fails) = 2
      ∧ useAfterClose Handle.db1 (app_main envQuery1Fails) = true :=
  app_main_closes_twice_after_failed_query envQuery1Fails rfl rfl rfl (Or.inl (by decide))
    Handle.db1

/-! ## Unmounting -/

/-- In a list that ends with its only unmount, whatever precedes an unmount is
the whole list before that last element. -/
theorem eq_of_append_unmount (u : Event) :
    ∀ (l a b : List Event) (x : Event), isUnmount x = true → l.any isUnmount = false →
      a ++ x :: b = l ++ [u] → a = l := by
  intro l
  induction l with
  | nil =>
    intro a b x _ _ h
    cases a with
    | nil => rfl
    | cons y a =>
      simp at h
  | cons y l ih =>
    intro a b x hx hl h
    rw [List.any_cons, Bool.or_eq_false_iff] at hl
    cases a with
    | nil =>
      rw [List.nil_append, List.cons_append, List.cons.injEq] at h
      rw [h.1, hl.1] at hx
      exact absurd hx (by decide)
    | cons z a =>
      rw [List.cons_append, List.cons_append, List.cons.injEq] at h
      rw [h.1, ih a b x hx hl.2 h.2]

/-- C10: in every run of `app_main`, whatever the outcomes, at every unmount
of the run no database connection is open: each connection that was opened
before the unmount has been closed before it. -/
theorem app_main_unmount_after_close (env : Env) (pre post : List Event) (p : String)
    (hsplit : app_main env = pre ++ Event.unmount p :: post) (h : Handle) :
    handleOpen h pre = false := by
  have hs : storageOps (app_main env)
      = storageOps pre ++ Event.unmount p :: storageOps post := by
    rw [hsplit, storageOps_append, storageOps_cons]
    rfl
  have hmem : Event.unmount p ∈ storageOps (app_main env) := by
    rw [hs]
    simp
  have hall : env.mountRet = ESP_OK ∧ env.open1.rc = 0 ∧ env.open2.rc = 0 := by
    rw [storageOps_app_main] at hmem
    by_cases hm : env.mountRet = ESP_OK <;> by_cases h1 : env.open1.rc = 0 <;>
      by_cases h2 : env.open2.rc = 0 <;> simp_all
  obtain ⟨hm, h1, h2⟩ := hall
  have hsel := storageOps_select_data env.exec1 env.exec2
  have hq := storageOps_app_main_queried env hm h1 h2
  have hq2 : storageOps (app_main env) =
      ([Event.mount "/sdcard" mount_config ESP_OK,
        Event.sqliteOpen "/sdcard/chinook.db" Handle.db1 0,
        Event.sqliteOpen "/sdcard/mdr512.db" Handle.db2 0]
        ++ storageOps (select_data env.exec1 env.exec2)
        ++ [Event.sqliteClose Handle.db1, Event.sqliteClose Handle.db2])
      ++ [Event.unmount "/sdcard"] := by
    rw [hq]
    simp
  have hno : ([Event.mount "/sdcard" mount_config ESP_OK,
        Event.sqliteOpen "/sdcard/chinook.db" Handle.db1 0,
        Event.sqliteOpen "/sdcard/mdr512.db" Handle.db2 0]
        ++ storageOps (select_data env.exec1 env.exec2)
        ++ [Event.sqliteClose Handle.db1, Event.sqliteClose Handle.db2]).any isUnmount
      = false := by
    rw [hsel]
    by_cases hq1 : env.exec1.rc = SQLITE_OK <;> by_cases hq2 : env.exec2.rc = SQLITE_OK <;>
      simp [hq1, hq2, isUnmount]
  have hpre := eq_of_append_unmount (Event.unmount "/sdcard") _ (storageOps pre)
    (storageOps post) (Event.unmount p) rfl hno (hs.symm.trans hq2)
  rw [← handleOpen_storageOps, hpre, hsel]
  by_cases hq1 : env.exec1.rc = SQLITE_OK <;> by_cases hq2 : env.exec2.rc = SQLITE_OK <;>
    cases h <;> simp [hq1, hq2, handleOpen, stepOpen]

/-- Witness for C10: the run whose second query fails, cut at its unmount. -/
theorem app_main_unmount_after_close_witness :
    app_main envQuery2Fails
        = (app_main envQuery2Fails).take 37
          ++ Event.unmount "/sdcard" :: [Event.logI TAG "Card unmounted"]
      ∧ handleOpen Handle.db2 ((app_main envQuery2Fails).take 37) = false :=
  ⟨by decide,
    app_main_unmount_after_close envQuery2Fails ((app_main envQuery2Fails).take 37)
      [Event.logI TAG "Card unmounted"] "/sdcard" (by decide) Handle.db2⟩

end SdMmc
